import Mathlib

/-!
Verification development for the pyfred repository (a Python CLI and runtime
library for building Alfred script-filter workflows).

The Python source in `src/pyfred` is shallowly embedded below:

* `src/pyfred/model.py` — the output data model (`Icon`, `Text`, `Data`,
  `Action`, `OutputItem`, `ScriptFilterOutput`), whose dataclass
  `__post_init__` validators are embedded as smart constructors returning
  `Except PyError`, and the environment reader `Environment.from_env`.
* `src/pyfred/workflow.py` — the `script_filter` invocation wrapper with its
  `vars_if_set` JSON serialization (`json.dumps(output, default=vars_if_set)`).
* `src/pyfred/cli.py` — the project-root guard decorator, `_zip_dir`, and the
  `package` command, over an abstract filesystem (a set of file paths, each a
  list of segments).

Python runtime behaviour is embedded faithfully: falsy checks on strings test
for the empty string, `dict` comprehensions keep insertion order, exceptions
become `Except.error` values tagged with the Python exception class raised.
-/

namespace Pyfred

/-- Python runtime errors that the embedded code can raise. -/
inductive PyError where
  | valueError (msg : String)
  | attributeError (msg : String)
  | typeError (msg : String)
deriving DecidableEq, Repr

/-- model.py, `class Key`: modifier keys usable in `OutputItem.mods`. -/
inductive Key where
  | Cmd
  | Option
  | Control
  | Shift
  | Fn
deriving DecidableEq, Repr

/-- model.py, the `.value` of each `Key` enum member (its wire string). -/
def Key.value : Key → String
  | .Cmd => "cmd"
  | .Option => "alt"
  | .Control => "ctrl"
  | .Shift => "shift"
  | .Fn => "fn"

/-- model.py, `class Icon` (fields only; the validator is `Icon.make`). -/
structure Icon where
  path : String := ""
  type : Option String := none
deriving DecidableEq, Repr

/-- model.py, `Icon.__post_init__`:
`if self.type and self.type not in ("fileicon", "filetype"): raise ValueError`.
A `None` or empty-string `type` is falsy and skips the check. -/
def Icon.make (path : String) (type : Option String) : Except PyError Icon :=
  match type with
  | some t =>
    if t ≠ "" ∧ t ≠ "fileicon" ∧ t ≠ "filetype" then
      .error (.valueError ("if set, type must be either fileicon or filetype"))
    else
      .ok { path := path, type := some t }
  | none => .ok { path := path, type := none }

/-- model.py, `class Type`: the result-type tag of an `OutputItem`.
(`Type` is not a legal Lean name, hence the underscore.) -/
inductive Type_ where
  | Default
  | File
  | FileSkipCheck
deriving DecidableEq, Repr

/-- model.py, the `.value` of each `Type` enum member (its wire string). -/
def Type_.value : Type_ → String
  | .Default => "default"
  | .File => "file"
  | .FileSkipCheck => "file:skipcheck"

/-- model.py, `class Text` (fields only; the validator is `Text.make`). -/
structure Text where
  copy : Option String := none
  large_type : Option String := none
deriving DecidableEq, Repr

/-- model.py, `Text.__post_init__`:
`if self.copy is None and self.large_type is None: raise ValueError`. -/
def Text.make (copy : Option String) (large_type : Option String) :
    Except PyError Text :=
  if copy = none ∧ large_type = none then
    .error (.valueError ("At least one of copy or large_type must be set"))
  else
    .ok { copy := copy, large_type := large_type }

/-- model.py, `class Data`: per-modifier override values. No validator. -/
structure Data where
  subtitle : Option String := none
  arg : Option String := none
  icon : Option Icon := none
  valid : Option Bool := none
deriving DecidableEq, Repr

/-- A Python value of static type `Union[str, list[str]]`. -/
inductive StrOrList where
  | str (s : String)
  | list (l : List String)
deriving DecidableEq, Repr

/-- model.py, `class Action`: payloads for Universal Actions. No validator. -/
structure Action where
  text : Option StrOrList
  url : Option StrOrList
  file : Option StrOrList
  auto : Option StrOrList
deriving DecidableEq, Repr

/-- A Python value of static type `Union[str, list[str], Action]`
(the `actions` field of `OutputItem`). -/
inductive Actions where
  | str (s : String)
  | list (l : List String)
  | action (a : Action)
deriving DecidableEq, Repr

/-- A key of the `mods` dict as passed by the caller: statically
`Union[Key, str]`, i.e. either a `Key` enum member or a raw string. -/
inductive ModKey where
  | key (k : Key)
  | raw (s : String)
deriving DecidableEq, Repr

/-- The `type` argument of `OutputItem` as passed by the caller: statically
`Union[Type, str]`, defaulting to `Type.Default`. -/
inductive TypeArg where
  | enum (t : Type_)
  | str (s : String)
deriving DecidableEq, Repr

/-- model.py, `class OutputItem`, in its state after `__post_init__`: the
`type` field then always holds the wire string, and the keys of `mods` have
been mapped through `.value`. Python dicts are embedded as association lists
in insertion order (source dicts have distinct keys). `match` is a reserved
word in Lean, hence `match_`. -/
structure OutputItem where
  title : String
  subtitle : Option String := none
  uid : Option String := none
  arg : Option String := none
  icon : Option Icon := none
  valid : Option Bool := none
  match_ : Option String := none
  autocomplete : Option String := none
  mods : Option (List (String × Data)) := none
  text : Option Text := none
  quicklook_url : Option String := none
  actions : Option Actions := none
  type : String
deriving DecidableEq, Repr

/-- model.py, `OutputItem.__post_init__`, the mods normalization:
`{k.value: v for k, v in self.mods.items()}`. The attribute access `k.value`
is evaluated on every key in order; on a raw string key it raises
`AttributeError` because `str` has no attribute `value`. -/
def normalizeMods : List (ModKey × Data) → Except PyError (List (String × Data))
  | [] => .ok []
  | (k, v) :: rest =>
    match k with
    | .key kk => (normalizeMods rest).map (fun r => (kk.value, v) :: r)
    | .raw _ => .error (.attributeError ("\x27str\x27 object has no attribute \x27value\x27"))

/-- The mods normalization lifted over the optional `mods` field
(`if self.mods is not None`). -/
def normalizeModsOpt :
    Option (List (ModKey × Data)) → Except PyError (Option (List (String × Data)))
  | none => .ok none
  | some m => (normalizeMods m).map some

/-- model.py, `OutputItem.__post_init__`, the type normalization:
`if not self.type: self.type = Type.Default` (only the empty string is a
falsy `Union[Type, str]` value), then
`if isinstance(self.type, Type): self.type = self.type.value`. -/
def normalizeType : TypeArg → String
  | .enum t => t.value
  | .str s => if s = "" then Type_.Default.value else s

/-- model.py, construction of `OutputItem` including `__post_init__`, in
source order: type normalization, then mods normalization (which can raise
`AttributeError`), then `if not self.title: raise ValueError`. -/
def OutputItem.make (title : String) (subtitle : Option String)
    (uid : Option String) (arg : Option String) (icon : Option Icon)
    (valid : Option Bool) (match_ : Option String) (autocomplete : Option String)
    (mods : Option (List (ModKey × Data))) (text : Option Text)
    (quicklook_url : Option String) (actions : Option Actions)
    (type : TypeArg) : Except PyError OutputItem :=
  match normalizeModsOpt mods with
  | .error e => .error e
  | .ok mods_ =>
    if title = "" then
      .error (.valueError ("title must be set"))
    else
      .ok { title := title, subtitle := subtitle, uid := uid, arg := arg,
            icon := icon, valid := valid, match_ := match_,
            autocomplete := autocomplete, mods := mods_, text := text,
            quicklook_url := quicklook_url, actions := actions,
            type := normalizeType type }

/-- model.py, `class ScriptFilterOutput`, after `__post_init__`. The `rerun`
field is annotated `Optional[int]` in the source. -/
structure ScriptFilterOutput where
  rerun : Option ℤ := none
  items : Option (List OutputItem) := none
  variables_ : Option (List (String × String)) := none
deriving DecidableEq, Repr

/-- model.py, `ScriptFilterOutput.__post_init__`:
`if self.rerun is not None and not 0.1 <= self.rerun <= 5: raise ValueError`.
The source compares the `int`-annotated field with the float literal `0.1`;
on integers that comparison coincides with the exact rational `1/10` used
here. -/
def ScriptFilterOutput.make (rerun : Option ℤ) (items : Option (List OutputItem))
    (variables_ : Option (List (String × String))) :
    Except PyError ScriptFilterOutput :=
  match rerun with
  | some r =>
    if ¬((1 : ℚ)/10 ≤ (r : ℚ) ∧ (r : ℚ) ≤ 5) then
      .error (.valueError ("rerun must be between 0.1 and 5"))
    else
      .ok { rerun := some r, items := items, variables_ := variables_ }
  | none => .ok { rerun := none, items := items, variables_ := variables_ }

/-- model.py, `class Environment`: the snapshot of the Alfred environment
variables. Path-valued fields are embedded as their string representation;
`Path.expanduser` (tilde expansion against the OS home directory, applied by
the source to the cache and data paths) is left as the stored string, since it
is an OS lookup no property here depends on. The fields `version_build` and
`workflow_name` are annotated `str` in the source, but the source only applies
a `typing.cast` (a runtime no-op) to `os.environ.get`, so at runtime they hold
the optional lookup result; they are embedded with that runtime type. -/
structure Environment where
  debug : Bool
  preferences_file : String
  version : String
  version_build : Option String
  workflow_name : Option String
  workflow_version : Option String
  workflow_bundle_id : Option String
  workflow_uid : String
  workflow_cache : Option String
  workflow_data : Option String
deriving DecidableEq, Repr

/-- The `TypeError` raised by `pathlib.Path(None)`: `os.environ.get` returns
`None` for an unset variable and `typing.cast` does not convert, so
constructing a `Path` from the absent value raises. -/
def pathOfNoneError : PyError :=
  .typeError ("argument should be a str or an os.PathLike object where __fspath__ returns a str, not <class \x27NoneType\x27>")

/-- model.py, `Environment.from_env`. The process environment is embedded as
a pure lookup function `environ : String → Option String` (`os.environ.get`).
`if not os.environ.get("alfred_version")` treats both an unset variable and an
empty value as falsy and returns `None` (embedded as `.ok none`).
Otherwise the record is built; `Path(cast(str, os.environ.get("alfred_preferences")))`
raises `TypeError` when the preferences variable is unset, and
`os.environ.get("alfred_workflow_uid") or ""` yields the empty string for an
unset or empty variable. `Path(cache_dir).expanduser() if cache_dir else None`
keeps only a truthy (non-empty) value. -/
def Environment.from_env (environ : String → Option String) :
    Except PyError (Option Environment) :=
  match environ ("alfred_version") with
  | none => .ok none
  | some v =>
    if v = "" then .ok none
    else
      match environ ("alfred_preferences") with
      | none => .error pathOfNoneError
      | some prefs =>
        .ok (some
          { debug := decide (environ ("alfred_debug") = some ("1"))
            preferences_file := prefs
            version := v
            version_build := environ ("alfred_version_build")
            workflow_name := environ ("alfred_workflow_name")
            workflow_version := environ ("alfred_workflow_version")
            workflow_bundle_id := environ ("alfred_workflow_bundle_id")
            workflow_uid := (environ ("alfred_workflow_uid")).getD ("")
            workflow_cache :=
              match environ ("alfred_workflow_cache") with
              | some d => if d = "" then none else some d
              | none => none
            workflow_data :=
              match environ ("alfred_workflow_data") with
              | some d => if d = "" then none else some d
              | none => none })

/-- One hexadecimal digit, lower case, as emitted by `json.dumps` in
`\uXXXX` escapes. -/
def hexDigit (n : Nat) : Char :=
  if n < 10 then Char.ofNat (48 + n) else Char.ofNat (97 + (n - 10))

/-- Four hexadecimal digits. -/
def hex4 (n : Nat) : String :=
  String.mk [hexDigit (n / 4096 % 16), hexDigit (n / 256 % 16),
             hexDigit (n / 16 % 16), hexDigit (n % 16)]

/-- `json.dumps` string escaping with the default `ensure_ascii=True`: the
characters `"` and `\` and everything outside the printable ASCII range
0x20–0x7e are escaped, with short escapes for the usual control characters
and surrogate pairs for code points beyond the basic multilingual plane. -/
def escapeChar (c : Char) : String :=
  if c = Char.ofNat 34 then ("\\\"")
  else if c = Char.ofNat 92 then ("\\\\")
  else if c = Char.ofNat 10 then ("\\n")
  else if c = Char.ofNat 13 then ("\\r")
  else if c = Char.ofNat 9 then ("\\t")
  else if c = Char.ofNat 8 then ("\\b")
  else if c = Char.ofNat 12 then ("\\f")
  else if 32 ≤ c.toNat ∧ c.toNat ≤ 126 then String.mk [c]
  else if c.toNat < 65536 then ("\\u") ++ hex4 c.toNat
  else
    "\\u" ++ hex4 (55296 + (c.toNat - 65536) / 1024)
      ++ "\\u" ++ hex4 (56320 + (c.toNat - 65536) % 1024)

/-- A JSON string literal as emitted by `json.dumps`. -/
def dumpStr (s : String) : String :=
  "\"" ++ String.join (s.data.map escapeChar) ++ "\""

/-- A JSON boolean as emitted by `json.dumps`. -/
def dumpBool (b : Bool) : String :=
  if b then ("true") else ("false")

/-- workflow.py, `vars_if_set` composed with the dict rendering of
`json.dumps` (default separators `", "` and `": "`): given the fields of an
object in declaration order, each paired with its already-serialized value
when set, renders the JSON object holding exactly the set fields —
`{k: v for k, v in vars(obj).items() if v is not None}`. -/
def vars_if_set_obj (fields : List (String × Option String)) : String :=
  "\x7b" ++
    String.intercalate (", ")
      (fields.filterMap (fun kv => kv.2.map (fun v => dumpStr kv.1 ++ ": " ++ v)))
    ++ "\x7d"

/-- A JSON array as emitted by `json.dumps` from already-serialized elements. -/
def dumpArr (elems : List String) : String :=
  "[" ++ String.intercalate (", ") elems ++ "]"

/-- A string-valued JSON object (a Python `dict[str, str]`, insertion order)
as emitted by `json.dumps`. -/
def dumpStrDict (kvs : List (String × String)) : String :=
  "\x7b" ++
    String.intercalate (", ") (kvs.map (fun kv => dumpStr kv.1 ++ ": " ++ dumpStr kv.2))
    ++ "\x7d"

/-- Serialization of an `Icon` via `vars_if_set`: `path` is always a string
(never `None`), `type` is emitted only when set. -/
def Icon.dumps (i : Icon) : String :=
  vars_if_set_obj [("path", some (dumpStr i.path)), ("type", i.type.map dumpStr)]

/-- Serialization of a `Text` via `vars_if_set`. -/
def Text.dumps (t : Text) : String :=
  vars_if_set_obj
    [("copy", t.copy.map dumpStr), ("large_type", t.large_type.map dumpStr)]

/-- Serialization of a `Data` via `vars_if_set`. -/
def Data.dumps (d : Data) : String :=
  vars_if_set_obj
    [("subtitle", d.subtitle.map dumpStr), ("arg", d.arg.map dumpStr),
     ("icon", d.icon.map Icon.dumps), ("valid", d.valid.map dumpBool)]

/-- Serialization of a `Union[str, list[str]]` value. -/
def StrOrList.dumps : StrOrList → String
  | .str s => dumpStr s
  | .list l => dumpArr (l.map dumpStr)

/-- Serialization of an `Action` via `vars_if_set`. -/
def Action.dumps (a : Action) : String :=
  vars_if_set_obj
    [("text", a.text.map StrOrList.dumps), ("url", a.url.map StrOrList.dumps),
     ("file", a.file.map StrOrList.dumps), ("auto", a.auto.map StrOrList.dumps)]

/-- Serialization of the `actions` field: a raw string or list of strings is
passed through to `json.dumps` as-is; an `Action` goes through `vars_if_set`. -/
def Actions.dumps : Actions → String
  | .str s => dumpStr s
  | .list l => dumpArr (l.map dumpStr)
  | .action a => a.dumps

/-- Serialization of the normalized `mods` dict: string keys mapping to
`Data` objects, each rendered via `vars_if_set`. -/
def dumpMods (kvs : List (String × Data)) : String :=
  "\x7b" ++
    String.intercalate (", ") (kvs.map (fun kv => dumpStr kv.1 ++ ": " ++ kv.2.dumps))
    ++ "\x7d"

/-- Serialization of an `OutputItem` via `vars_if_set`: the fields of the
dataclass in declaration order (`vars` preserves it), each emitted only when
not `None`. `title` is always a string and, after `__post_init__`, so is
`type`; both are therefore always emitted. -/
def OutputItem.dumps (it : OutputItem) : String :=
  vars_if_set_obj
    [("title", some (dumpStr it.title)),
     ("subtitle", it.subtitle.map dumpStr),
     ("uid", it.uid.map dumpStr),
     ("arg", it.arg.map dumpStr),
     ("icon", it.icon.map Icon.dumps),
     ("valid", it.valid.map dumpBool),
     ("match", it.match_.map dumpStr),
     ("autocomplete", it.autocomplete.map dumpStr),
     ("mods", it.mods.map dumpMods),
     ("text", it.text.map Text.dumps),
     ("quicklook_url", it.quicklook_url.map dumpStr),
     ("actions", it.actions.map Actions.dumps),
     ("type", some (dumpStr it.type))]

/-- Serialization of a `ScriptFilterOutput` via
`json.dumps(output, default=vars_if_set)`: the top-level dataclass and every
nested dataclass are rendered through `vars_if_set`, so unset (`None`) fields
are omitted at every nesting level. The `rerun` field is `int`-annotated and
rendered in decimal. -/
def ScriptFilterOutput.dumps (o : ScriptFilterOutput) : String :=
  vars_if_set_obj
    [("rerun", o.rerun.map (fun r => toString r)),
     ("items", o.items.map (fun its => dumpArr (its.map OutputItem.dumps))),
     ("variables", o.variables_.map dumpStrDict)]

/-- The dynamic value returned by the user-supplied handler: either an actual
`ScriptFilterOutput` instance, or a value of any other runtime type, carrying
the name that `type(output)` prints for it. -/
inductive HandlerResult where
  | scriptFilterOutput (o : ScriptFilterOutput)
  | other (typeName : String)
deriving Repr

/-- The observable outcome of one run of the decorated entry point: the lines
written to standard output, the error-level log lines (the `logging` module
writes to standard error, never standard output), and the process exit code
(`exit(1)` on the error path, the implicit 0 otherwise). -/
structure RunResult where
  stdout : List String
  errorLog : List String
  exitCode : Nat
deriving DecidableEq, Repr

/-- workflow.py, `script_filter`: the decorator body (`decorator`). It calls
the handler exactly once with the script path, the remaining arguments and the
environment record (or `None`). If the returned value is not a
`ScriptFilterOutput` instance, it logs the offending type at error level and
exits with status 1 — nothing is printed to standard output. Otherwise it
prints `json.dumps(output, default=vars_if_set)` as one line on standard
output. -/
def script_filter
    (fn : String → List String → Option Environment → HandlerResult)
    (path : String) (args : List String)
    (alfred_environment : Option Environment) : RunResult :=
  match fn path args alfred_environment with
  | .other typeName =>
    { stdout := []
      errorLog :=
        ["The workflow returned an unexpected type: " ++ typeName ++
          ", but expected pyfred.model.ScriptFilterOutput."]
      exitCode := 1 }
  | .scriptFilterOutput output =>
    { stdout := [output.dumps], errorLog := [], exitCode := 0 }

/-- A filesystem path, as a list of segments. -/
abbrev PyPath := List String

/-- The state a CLI command runs in and can mutate: the set of files present
(directories are implicit) and the process exit code (0 unless `exit` was
called). -/
structure ProcState where
  fs : List PyPath
  exitCode : Nat := 0
deriving DecidableEq, Repr

/-- cli.py, `_must_be_run_from_workflow_project_root`: the decorator applied
to the `link`, `vendor` and `package` entry points. It checks that
`Path.cwd() / "workflow" / "Info.plist"` exists; if not, it logs a critical
message and calls `exit(1)` — the wrapped command body `fn` runs only after,
and only if, the check passes. -/
def _must_be_run_from_workflow_project_root
    (fn : ProcState → ProcState) (cwd : PyPath) (s : ProcState) : ProcState :=
  if (cwd ++ ["workflow", "Info.plist"]) ∈ s.fs then fn s
  else { s with exitCode := 1 }

/-- cli.py, `_zip_dir`: walks `directory.rglob("**/*")`, keeps the entries
that are files, and writes each into the archive under
`entry.relative_to(directory)`. The result is the list of archive entry
paths. -/
def _zip_dir (fs : List PyPath) (directory : PyPath) : List PyPath :=
  fs.filterMap (fun entry =>
    if directory <+: entry ∧ entry ≠ directory then
      some (entry.drop directory.length)
    else none)

/-- The state the `package` command body runs in: the current directory, the
files present, and the exit status of the `pip install` subprocess that
`_vendor` runs (`subprocess.call(pip_command) == 0`). -/
structure PackageWorld where
  cwd : PyPath
  fs : List PyPath
  vendorSucceeds : Bool
deriving DecidableEq, Repr

/-- The observable outcome of the `package` command body: the exit code and
the archive entries of `dist/workflow.alfredworkflow`, when one was written. -/
structure PackageResult where
  exitCode : Nat
  archive : Option (List PyPath)
deriving DecidableEq, Repr

/-- cli.py, `package` (the command body, inside the project-root guard):
`if not _vendor(Path.cwd()): exit(1)` — on vendoring failure the process
aborts before `dist` is created or `_zip_dir` runs, so no archive is
produced; on success it zips `root_dir / "workflow"` into
`dist/workflow.alfredworkflow`. -/
def package (w : PackageWorld) : PackageResult :=
  if w.vendorSucceeds = false then
    { exitCode := 1, archive := none }
  else
    { exitCode := 0, archive := some (_zip_dir w.fs (w.cwd ++ ["workflow"])) }

/-- Archive entries of `_zip_dir`: a path `e` is written into the archive
exactly when `directory ++ e` is a file in the filesystem and `e` is not the
empty relative path — i.e. entry paths are the file paths under `directory`,
relative to it. -/
theorem mem_zip_dir_iff (fs : List PyPath) (d e : PyPath) :
    e ∈ _zip_dir fs d ↔ (d ++ e) ∈ fs ∧ e ≠ [] := by
  unfold _zip_dir
  rw [List.mem_filterMap]
  constructor
  · rintro ⟨entry, hmem, hf⟩
    split at hf
    next hc =>
      obtain ⟨⟨t, rfl⟩, hne⟩ := hc
      rw [List.drop_left] at hf
      injection hf with hf
      subst hf
      refine ⟨hmem, ?_⟩
      intro h
      subst h
      simp at hne
    next => simp at hf
  · rintro ⟨hmem, hne⟩
    refine ⟨d ++ e, hmem, ?_⟩
    rw [if_pos ⟨⟨e, rfl⟩, by simpa using hne⟩, List.drop_left]

/-- Claim C1: for a handler returning a `ScriptFilterOutput` whose only
content is the single minimal item `OutputItem(title="Hello Alfred!")`, the
invocation wrapper prints to standard output exactly one line of JSON equal
to `{"items": [{"title": "Hello Alfred!", "type": "default"}]}` — every unset
(`None`) field is omitted at every nesting level, and the unset result-type
tag is rendered as the wire string `"default"`. -/
theorem claim_C1_minimal_item_serialization :
    (do
      let item ← OutputItem.make ("Hello Alfred!") none none none none none
        none none none none none none (.enum .Default)
      let out ← ScriptFilterOutput.make none (some [item]) none
      pure (script_filter (fun _ _ _ => .scriptFilterOutput out)
        ("workflow.py") [] none)
      : Except PyError RunResult) =
    .ok { stdout :=
            ["\x7b\"items\": [\x7b\"title\": \"Hello Alfred!\", \"type\": \"default\"\x7d]\x7d"],
          errorLog := [], exitCode := 0 } := rfl

/-- Claim C2: the output data model fails fast at construction time — an
`OutputItem` with an empty title raises, a `ScriptFilterOutput` with a rerun
value outside the closed interval [0.1, 5] raises, a `Text` override with
both fields absent raises, and construction with valid arguments succeeds. -/
theorem claim_C2_construction_fail_fast :
    (∀ (title : String) subtitle uid arg icon valid match_ autocomplete text
        quicklook_url actions type,
        (OutputItem.make title subtitle uid arg icon valid match_ autocomplete
            none text quicklook_url actions type).isOk = true ↔ title ≠ "") ∧
    (∀ (r : ℤ) items vars,
        (ScriptFilterOutput.make (some r) items vars).isOk = true ↔
          ((1 : ℚ)/10 ≤ (r : ℚ) ∧ (r : ℚ) ≤ 5)) ∧
    (∀ items vars, (ScriptFilterOutput.make none items vars).isOk = true) ∧
    (∀ copy large_type, (Text.make copy large_type).isOk = true ↔
        ¬(copy = none ∧ large_type = none)) := by
  refine ⟨?_, ?_, ?_, ?_⟩
  · intro title s u a i v m ac t q acts ty
    simp only [OutputItem.make, normalizeModsOpt]
    split <;> simp_all [Except.isOk, Except.toBool]
  · intro r items vars
    simp only [ScriptFilterOutput.make]
    split <;> simp_all [Except.isOk, Except.toBool]
  · intro items vars
    rfl
  · intro c l
    simp only [Text.make]
    split <;> simp_all [Except.isOk, Except.toBool]

/-- Claim C3: whenever the handler returns a value that is not a
`ScriptFilterOutput` instance, the invocation wrapper logs the offending type
at error level and aborts with exit status 1, and nothing is written to
standard output on this path. -/
theorem claim_C3_wrong_return_type_aborts
    (fn : String → List String → Option Environment → HandlerResult)
    (path : String) (args : List String) (env : Option Environment)
    (typeName : String) (h : fn path args env = .other typeName) :
    script_filter fn path args env =
      { stdout := []
        errorLog :=
          ["The workflow returned an unexpected type: " ++ typeName ++
            ", but expected pyfred.model.ScriptFilterOutput."]
        exitCode := 1 } := by
  simp [script_filter, h]

/-- Witness for claim C3 at a handler returning a Python `int`. -/
theorem claim_C3_witness :
    script_filter (fun _ _ _ => .other ("<class \x27int\x27>")) ("workflow.py")
        [] none =
      { stdout := []
        errorLog :=
          ["The workflow returned an unexpected type: <class \x27int\x27>" ++
            ", but expected pyfred.model.ScriptFilterOutput."]
        exitCode := 1 } :=
  claim_C3_wrong_return_type_aborts _ ("workflow.py") [] none
    ("<class \x27int\x27>") rfl

/-- Claim C4: the claim states that a mods mapping may mix the 5 enumeration
keys with raw string keys, the enumeration keys being normalized to their
wire strings and raw string keys passing through. On the code this fails:
`OutputItem.__post_init__` evaluates `k.value` on every key of `mods`, so a
raw string key raises `AttributeError` even though the field is annotated
`dict[Union[Key, str], Data]`. Enumeration keys are indeed normalized. -/
theorem claim_C4_raw_mod_key_raises :
    (OutputItem.make ("x") none none none none none none none
        (some [(ModKey.raw ("cmd"), { subtitle := some ("s") })]) none none
        none (.enum .Default) =
      .error (.attributeError
        ("\x27str\x27 object has no attribute \x27value\x27"))) ∧
    (∃ item,
      OutputItem.make ("x") none none none none none none none
          (some [(ModKey.key .Cmd, { subtitle := some ("s") })]) none none
          none (.enum .Default) = .ok item ∧
        item.mods = some [("cmd", { subtitle := some ("s") })]) :=
  ⟨rfl, ⟨_, rfl, rfl⟩⟩

/-- Claim C5: with the host marker variable `alfred_version` absent, the
environment reader returns the absent value (`None`) without raising. -/
theorem claim_C5_no_marker_returns_none
    (environ : String → Option String)
    (h : environ ("alfred_version") = none) :
    Environment.from_env environ = .ok none := by
  simp [Environment.from_env, h]

/-- Witness for claim C5 at the empty process environment. -/
theorem claim_C5_witness :
    Environment.from_env (fun _ => none) = .ok none :=
  claim_C5_no_marker_returns_none _ rfl

/-- Claim C6: every `Environment` record the reader returns has `debug = true`
exactly when the `alfred_debug` variable holds the literal string `"1"`; any
other value, including absence, yields `debug = false`. -/
theorem claim_C6_debug_iff_literal_one
    (environ : String → Option String) (e : Environment)
    (h : Environment.from_env environ = .ok (some e)) :
    (e.debug = true ↔ environ ("alfred_debug") = some ("1")) := by
  simp only [Environment.from_env] at h
  split at h
  · simp at h
  · split at h
    · simp at h
    · split at h
      · simp at h
      · simp only [Except.ok.injEq, Option.some.injEq] at h
        subst h
        simp

/-- Witness for claim C6 at a fixture environment with `alfred_debug` set to
`"1"`. -/
theorem claim_C6_witness :
    (({ debug := true, preferences_file := "/p", version := "5.0",
        version_build := none, workflow_name := none, workflow_version := none,
        workflow_bundle_id := none, workflow_uid := "", workflow_cache := none,
        workflow_data := none } : Environment).debug = true ↔
      (fun s => if s = "alfred_version" then some ("5.0")
                else if s = "alfred_preferences" then some ("/p")
                else if s = "alfred_debug" then some ("1")
                else none) ("alfred_debug") = some ("1")) :=
  claim_C6_debug_iff_literal_one
    (fun s => if s = "alfred_version" then some ("5.0")
              else if s = "alfred_preferences" then some ("/p")
              else if s = "alfred_debug" then some ("1")
              else none) _ rfl

/-- Claim C7: with `alfred_version` present (and non-empty, i.e. truthy) but
`alfred_preferences` absent, the environment reader does not return a record:
building the required `preferences_file` field evaluates
`Path(cast(str, os.environ.get("alfred_preferences")))` on the absent value
and raises `TypeError`. -/
theorem claim_C7_missing_preferences_raises
    (environ : String → Option String) (v : String)
    (h1 : environ ("alfred_version") = some v) (h2 : v ≠ "")
    (h3 : environ ("alfred_preferences") = none) :
    Environment.from_env environ = .error pathOfNoneError := by
  simp [Environment.from_env, h1, h2, h3]

/-- Witness for claim C7 at an environment holding only `alfred_version`. -/
theorem claim_C7_witness :
    Environment.from_env
        (fun s => if s = "alfred_version" then some ("5.0") else none) =
      .error pathOfNoneError :=
  claim_C7_missing_preferences_raises
    (fun s => if s = "alfred_version" then some ("5.0") else none)
    ("5.0") rfl (by decide) rfl

/-- Claim C8: when `workflow/Info.plist` does not exist under the current
directory, the project-root guard wrapping the `link`, `vendor` and `package`
entry points (cli.py lines 234, 301, 349) exits with status 1 and leaves the
filesystem untouched — for every wrapped command body `fn`, the result is the
input state with exit code 1 and `fn` is never run. -/
theorem claim_C8_outside_root_exits_unchanged
    (fn : ProcState → ProcState) (cwd : PyPath) (s : ProcState)
    (h : (cwd ++ ["workflow", "Info.plist"]) ∉ s.fs) :
    _must_be_run_from_workflow_project_root fn cwd s =
      { s with exitCode := 1 } := by
  simp [_must_be_run_from_workflow_project_root, h]

/-- Witness for claim C8 on an empty filesystem. -/
theorem claim_C8_witness :
    _must_be_run_from_workflow_project_root id []
        { fs := [], exitCode := 0 } =
      { fs := [], exitCode := 1 } :=
  claim_C8_outside_root_exits_unchanged id [] { fs := [], exitCode := 0 }
    (by simp)

/-- Claim C9: the `package` command body first re-vendors; if the installer
subprocess exits non-zero it aborts with exit code 1 and no archive is
produced, and only when vendoring succeeds does it zip the workflow
subdirectory, the archive holding exactly the files under
`cwd/workflow` with entry paths relative to that subdirectory. -/
theorem claim_C9_package_vendors_then_zips (w : PackageWorld) :
    (w.vendorSucceeds = false →
      package w = { exitCode := 1, archive := none }) ∧
    (w.vendorSucceeds = true →
      package w =
        { exitCode := 0,
          archive := some (_zip_dir w.fs (w.cwd ++ ["workflow"])) } ∧
      ∀ e, e ∈ _zip_dir w.fs (w.cwd ++ ["workflow"]) ↔
        ((w.cwd ++ ["workflow"]) ++ e) ∈ w.fs ∧ e ≠ []) := by
  constructor
  · intro h
    simp [package, h]
  · intro h
    refine ⟨by simp [package, h], ?_⟩
    intro e
    exact mem_zip_dir_iff w.fs (w.cwd ++ ["workflow"]) e

/-- Witness for claim C9 at a one-file project, in both the failing-vendor
and successful-vendor cases. -/
theorem claim_C9_witness :
    package { cwd := ["proj"], fs := [["proj", "workflow", "Info.plist"]],
              vendorSucceeds := false } =
        { exitCode := 1, archive := none } ∧
    package { cwd := ["proj"], fs := [["proj", "workflow", "Info.plist"]],
              vendorSucceeds := true } =
        { exitCode := 0, archive := some [["Info.plist"]] } :=
  ⟨(claim_C9_package_vendors_then_zips _).1 rfl,
   ((claim_C9_package_vendors_then_zips _).2 rfl).1.trans (by decide)⟩

/-- Claim C10: constructing an `Icon` with `type` equal to the empty string
succeeds, because the validator only rejects a truthy (non-empty) type
outside the two recognized tags; the empty-string type, being not `None`, is
then emitted by the serializer. The last conjunct characterizes the validator
exactly: a set type passes exactly when it is empty or one of the two tags. -/
theorem claim_C10_empty_icon_type_accepted :
    (Icon.make ("p") (some ("")) = .ok { path := "p", type := some "" }) ∧
    (Icon.dumps { path := "p", type := some "" } =
      "\x7b\"path\": \"p\", \"type\": \"\"\x7d") ∧
    (∀ path t, (Icon.make path (some t)).isOk = true ↔
      (t = "" ∨ t = "fileicon" ∨ t = "filetype")) := by
  refine ⟨rfl, rfl, ?_⟩
  intro path t
  simp only [Icon.make]
  split
  · simp_all [Except.isOk, Except.toBool]
  · simp_all [Except.isOk, Except.toBool]
    tauto

end Pyfred
